import Mathlib

/-!
Verification of the tool-calling round trip of `extra_tooling.py` and the
cosine-similarity function of `similarity.py` from the `bedrock-world`
repository, via a shallow embedding in Lean 4.

The remote inference endpoint is modelled as an oracle
`List Message → Except Unit Response`: `.error ()` stands for a transport
exception raised by `client.invoke_model`.  `invoke_model_with_tools`
returns, besides the Python return value (`Option String`, `none` standing
for Python `None`), the list of conversations handed to the oracle, so that
theorems can count and inspect the inference calls that were attempted.
-/

set_option autoImplicit false

namespace BedrockWorld

/-- A JSON value, as far as the tool-use `input` objects need: the source
only ever reads the `"cpf"` field, whose well-typed form is a string. -/
inductive JVal where
  | jstr (s : String)
  | jnum (n : Int)
  | jnull
  deriving DecidableEq, Repr

/-- A content block of a model message, mirroring the dicts with a `type`
field (`"text"`, `"tool_use"`, `"tool_result"`) used in `extra_tooling.py`. -/
inductive Block where
  | text (t : String)
  | toolUse (id : String) (name : String) (input : List (String × JVal))
  | toolResult (tool_use_id : String) (content : String)
  deriving DecidableEq, Repr

/-- Message content: either a plain string (the initial user message) or a
list of content blocks (assistant responses and tool-result messages). -/
inductive MsgContent where
  | str (s : String)
  | blocks (bs : List Block)
  deriving DecidableEq, Repr

/-- A conversation message, a dict with `role` and `content` in the source. -/
structure Message where
  role : String
  content : MsgContent
  deriving DecidableEq, Repr

/-- A model response body: `stop_reason` may be absent (`dict.get` returns
`None`), `content` defaults to the empty list. -/
structure Response where
  stop_reason : Option String
  content : List Block
  deriving DecidableEq, Repr

/-- The mock CPF database of `extra_tooling.py` (lines 10-19), as an
association list preserving the literal entries. -/
def CPF_DATABASE : List (String × String) :=
  [ ("123.456.789-00", "João da Silva"),
    ("987.654.321-00", "Maria Santos"),
    ("111.222.333-44", "Pedro Oliveira"),
    ("555.666.777-88", "Ana Costa"),
    ("12345678900", "João da Silva"),
    ("98765432100", "Maria Santos"),
    ("11122233344", "Pedro Oliveira"),
    ("55566677788", "Ana Costa") ]

/-- The digits-only normalization of a CPF string:
`''.join(char for char in cpf if char.isdigit())` (line 34). -/
def normalizeCpf (cpf : String) : String :=
  String.mk (cpf.data.filter (fun c => c.isDigit))

/-- `cpf_to_username` (lines 22-42): look up the exact string, then its
digits-only normalization, else return a "not found" message. -/
def cpf_to_username (cpf : String) : String :=
  match CPF_DATABASE.lookup cpf with
  | some name => name
  | none =>
    match CPF_DATABASE.lookup (normalizeCpf cpf) with
    | some name => name
    | none => "CPF " ++ cpf ++ " not found in database"

/-- The call site `cpf_to_username(tool_input.get('cpf', ''))`
(lines 134-135): an absent `"cpf"` key defaults to the empty string; a
present non-string value makes `cpf_to_username` raise a `TypeError`
when it iterates over the value's characters, modelled as `.error ()`. -/
def runCpfHandler (input : List (String × JVal)) : Except Unit String :=
  match input.lookup "cpf" with
  | none => .ok (cpf_to_username "")
  | some (JVal.jstr s) => .ok (cpf_to_username s)
  | some _ => .error ()

/-- The tool-dispatch loop over the first response's content blocks
(lines 121-143): each `tool_use` block named `cpf_to_username` contributes
a `tool_result` block; a `tool_use` block with any other name is skipped
with no result; an exception raised by the handler aborts the whole loop. -/
def processBlocks : List Block → Except Unit (List Block)
  | [] => .ok []
  | Block.toolUse id name input :: rest =>
    if name = "cpf_to_username" then
      match runCpfHandler input with
      | .error e => .error e
      | .ok result =>
        match processBlocks rest with
        | .error e => .error e
        | .ok rs => .ok (Block.toolResult id result :: rs)
    else processBlocks rest
  | _ :: rest => processBlocks rest

/-- Concatenation of the `text` fields of the `text` blocks, in order
(lines 165-168). -/
def concatText : List Block → String
  | [] => ""
  | Block.text t :: rest => t ++ concatText rest
  | _ :: rest => concatText rest

/-- The initial user message (lines 74-79). -/
def userMsg (s : String) : Message := ⟨"user", MsgContent.str s⟩

/-- `invoke_model_with_tools` (lines 45-174).  `model` is the inference
endpoint; the result pairs the Python return value with the list of
conversations sent, one entry per attempted inference call.  An `.error`
from the oracle or from a handler reaches the outer `try/except`, which
returns `None` (line 174), modelled as `none`. -/
def invoke_model_with_tools (model : List Message → Except Unit Response)
    (user_message : String) : Option String × List (List Message) :=
  let messages0 := [userMsg user_message]
  match model messages0 with
  | .error _ => (none, [messages0])
  | .ok resp1 =>
    if resp1.stop_reason = some "tool_use" then
      match processBlocks resp1.content with
      | .error _ => (none, [messages0])
      | .ok tool_results =>
        let messages2 := messages0 ++
          [⟨"assistant", MsgContent.blocks resp1.content⟩,
           ⟨"user", MsgContent.blocks tool_results⟩]
        match model messages2 with
        | .error _ => (none, [messages0, messages2])
        | .ok resp2 => (some (concatText resp2.content), [messages0, messages2])
    else (some (concatText resp1.content), [messages0])

/-- The `tool_use` blocks of a content list, in order, as
(id, name, input) triples. -/
def toolUseBlocks : List Block → List (String × String × List (String × JVal))
  | [] => []
  | Block.toolUse id name input :: rest => (id, name, input) :: toolUseBlocks rest
  | _ :: rest => toolUseBlocks rest

/-- The `tool_result` blocks of a content list, in order, as
(tool_use_id, content) pairs. -/
def toolResultBlocks : List Block → List (String × String)
  | [] => []
  | Block.toolResult tid c :: rest => (tid, c) :: toolResultBlocks rest
  | _ :: rest => toolResultBlocks rest

/-- A `tool_use` input is well typed for the declared schema when its
`"cpf"` field, if present, is a string. -/
def cpfInputOk (input : List (String × JVal)) : Bool :=
  match input.lookup "cpf" with
  | none => true
  | some (JVal.jstr _) => true
  | some _ => false

end BedrockWorld

namespace Similarity

/-- `sum(a * a for a in vec)` (lines 18-19), over rationals. -/
def sumSq (v : List ℚ) : ℚ := (v.map (fun a => a * a)).sum

/-- `sum(a * b for a, b in zip(vec1, vec2))` (line 15). -/
def dotProduct (v1 v2 : List ℚ) : ℚ :=
  ((v1.zip v2).map (fun p => p.1 * p.2)).sum

/-- A vector's magnitude `sum(a*a for a in vec) ** 0.5`; the square root
of the float code is modelled as an explicit parameter `sqrt`. -/
def magnitude (sqrt : ℚ → ℚ) (v : List ℚ) : ℚ := sqrt (sumSq v)

/-- `cosineSimilarity` (lines 3-26): compute the dot product and both
magnitudes, return `0.0` when either magnitude is zero, and only
otherwise divide by the product of the magnitudes. -/
def cosineSimilarity (sqrt : ℚ → ℚ) (v1 v2 : List ℚ) : ℚ :=
  let dot_product := dotProduct v1 v2
  let magnitude1 := magnitude sqrt v1
  let magnitude2 := magnitude sqrt v2
  if magnitude1 = 0 ∨ magnitude2 = 0 then 0
  else dot_product / (magnitude1 * magnitude2)

end Similarity

namespace BedrockWorld

/-- The string produced by a well-typed invocation of the registered
handler: the `"cpf"` argument, defaulting to the empty string. -/
def handlerValue (input : List (String × JVal)) : String :=
  match input.lookup "cpf" with
  | some (JVal.jstr s) => cpf_to_username s
  | _ => cpf_to_username ""

/-- The conversation sent to the second inference call (lines 114-152):
the initial user message, the assistant message replaying the first
response's content, and the user-role message carrying the batched tool
results. -/
def conv2 (msg : String) (content tool_results : List Block) : List Message :=
  [userMsg msg,
   ⟨"assistant", MsgContent.blocks content⟩,
   ⟨"user", MsgContent.blocks tool_results⟩]

/-- An oracle whose first response requests an unregistered tool and whose
second response is plain text. -/
def unknownToolModel : List Message → Except Unit Response := fun ms =>
  if ms.length ≤ 1 then
    .ok ⟨some "tool_use", [Block.toolUse "t1" "mystery_tool" []]⟩
  else .ok ⟨some "end_turn", [Block.text "hi"]⟩

/-- An oracle whose only response invokes the registered tool with a
non-string `"cpf"` argument (well-formed JSON, ill-typed for the declared
schema), which makes the Python handler invocation raise a `TypeError`. -/
def badInputModel : List Message → Except Unit Response := fun _ =>
  .ok ⟨some "tool_use",
    [Block.toolUse "t1" "cpf_to_username" [("cpf", JVal.jnum 123)]]⟩

/-- An oracle that always fails with a transport error. -/
def failingModel : List Message → Except Unit Response := fun _ => .error ()

/-- An oracle whose first response contains two tool-use blocks, one
registered and one unknown, and whose second response is plain text. -/
def twoToolModel : List Message → Except Unit Response := fun ms =>
  if ms.length ≤ 1 then
    .ok ⟨some "tool_use",
      [Block.toolUse "a" "cpf_to_username" [("cpf", JVal.jstr "123.456.789-00")],
       Block.toolUse "b" "mystery_tool" []]⟩
  else .ok ⟨some "end_turn", [Block.text "done"]⟩

/-- An oracle whose first response contains two registered tool-use
blocks and whose second response is plain text. -/
def twoRegisteredModel : List Message → Except Unit Response := fun ms =>
  if ms.length ≤ 1 then
    .ok ⟨some "tool_use",
      [Block.toolUse "a" "cpf_to_username" [("cpf", JVal.jstr "12345678900")],
       Block.toolUse "b" "cpf_to_username" [("cpf", JVal.jstr "98765432100")]]⟩
  else .ok ⟨some "end_turn", [Block.text "ok"]⟩

/-- An oracle whose first response contains one registered tool-use block
and whose second response is plain text. -/
def singleToolModel : List Message → Except Unit Response := fun ms =>
  if ms.length ≤ 1 then
    .ok ⟨some "tool_use",
      [Block.toolUse "t9" "cpf_to_username" [("cpf", JVal.jstr "987.654.321-00")]]⟩
  else .ok ⟨some "end_turn", [Block.text "The answer is Maria Santos."]⟩

/-- An oracle that requests the registered tool on every call, so that its
second response again carries stop reason `tool_use`. -/
def alwaysToolModel : List Message → Except Unit Response := fun ms =>
  if ms.length ≤ 1 then
    .ok ⟨some "tool_use",
      [Block.toolUse "t1" "cpf_to_username" [("cpf", JVal.jstr "11122233344")]]⟩
  else
    .ok ⟨some "tool_use",
      [Block.text "draft",
       Block.toolUse "t2" "cpf_to_username" [("cpf", JVal.jstr "55566677788")]]⟩

lemma runCpfHandler_ok (input : List (String × JVal))
    (h : cpfInputOk input = true) :
    runCpfHandler input = .ok (handlerValue input) := by
  unfold runCpfHandler handlerValue cpfInputOk at *
  rcases hl : input.lookup "cpf" with _ | v
  · simp [hl]
  · cases v <;> simp_all [hl]

/-- Dispatch over the content blocks succeeds and produces one
`tool_result` per `tool_use` block naming the registered tool, in order,
provided every registered `tool_use` block carries a well-typed input;
`tool_use` blocks with any other name contribute nothing. -/
lemma processBlocks_eq (bs : List Block)
    (h : ∀ x ∈ toolUseBlocks bs, x.2.1 = "cpf_to_username" → cpfInputOk x.2.2 = true) :
    processBlocks bs = .ok
      (((toolUseBlocks bs).filter (fun x => x.2.1 == "cpf_to_username")).map
        (fun x => Block.toolResult x.1 (handlerValue x.2.2))) := by
  induction bs with
  | nil => rfl
  | cons b rest ih =>
    cases b with
    | text t =>
      simp only [processBlocks, toolUseBlocks]
      exact ih (fun x hx => h x (by simp [toolUseBlocks, hx]))
    | toolResult tid c =>
      simp only [processBlocks, toolUseBlocks]
      exact ih (fun x hx => h x (by simp [toolUseBlocks, hx]))
    | toolUse id name input =>
      simp only [processBlocks, toolUseBlocks]
      have hrest := ih (fun x hx => h x (by simp [toolUseBlocks, hx]))
      by_cases hn : name = "cpf_to_username"
      · rw [if_pos hn,
          runCpfHandler_ok input (h (id, name, input) (by simp [toolUseBlocks]) hn),
          hrest]
        subst hn
        simp [List.filter_cons]
      · have hb : (name == "cpf_to_username") = false := by
          rw [beq_eq_false_iff_ne]
          exact hn
        rw [if_neg hn, hrest]
        simp [List.filter_cons, hb]

lemma concatText_of_no_text (bs : List Block)
    (h : ∀ b ∈ bs, ∀ t, b ≠ Block.text t) : concatText bs = "" := by
  induction bs with
  | nil => rfl
  | cons b rest ih =>
    cases b with
    | text t => exact absurd rfl (h (Block.text t) (by simp) t)
    | toolUse id name input =>
      simpa [concatText] using ih (fun x hx t => h x (by simp [hx]) t)
    | toolResult tid c =>
      simpa [concatText] using ih (fun x hx t => h x (by simp [hx]) t)

/-- Exhaustive case analysis of one execution of
`invoke_model_with_tools`: the four exits of the source function, each
with the oracle answers that lead to it and the resulting value/trace. -/
lemma invoke_cases (model : List Message → Except Unit Response) (msg : String) :
    (model [userMsg msg] = .error () ∧
      invoke_model_with_tools model msg = (none, [[userMsg msg]]))
    ∨ (∃ resp1, model [userMsg msg] = .ok resp1
        ∧ resp1.stop_reason ≠ some "tool_use"
        ∧ invoke_model_with_tools model msg =
            (some (concatText resp1.content), [[userMsg msg]]))
    ∨ (∃ resp1, model [userMsg msg] = .ok resp1
        ∧ resp1.stop_reason = some "tool_use"
        ∧ processBlocks resp1.content = .error ()
        ∧ invoke_model_with_tools model msg = (none, [[userMsg msg]]))
    ∨ (∃ resp1 rs, model [userMsg msg] = .ok resp1
        ∧ resp1.stop_reason = some "tool_use"
        ∧ processBlocks resp1.content = .ok rs
        ∧ ((model (conv2 msg resp1.content rs) = .error ()
              ∧ invoke_model_with_tools model msg =
                  (none, [[userMsg msg], conv2 msg resp1.content rs]))
           ∨ (∃ resp2, model (conv2 msg resp1.content rs) = .ok resp2
              ∧ invoke_model_with_tools model msg =
                  (some (concatText resp2.content),
                   [[userMsg msg], conv2 msg resp1.content rs])))) := by
  cases hm1 : model [userMsg msg] with
  | error e =>
    cases e
    exact Or.inl ⟨rfl, by simp [invoke_model_with_tools, hm1]⟩
  | ok resp1 =>
    by_cases hstop : resp1.stop_reason = some "tool_use"
    · cases hp : processBlocks resp1.content with
      | error e =>
        cases e
        exact Or.inr (Or.inr (Or.inl ⟨resp1, rfl, hstop, hp,
          by simp [invoke_model_with_tools, hm1, hstop, hp]⟩))
      | ok rs =>
        cases hm2 : model (conv2 msg resp1.content rs) with
        | error e =>
          cases e
          refine Or.inr (Or.inr (Or.inr ⟨resp1, rs, rfl, hstop, hp, Or.inl ⟨hm2, ?_⟩⟩))
          simp only [conv2] at hm2
          simp [invoke_model_with_tools, hm1, hstop, hp, hm2, conv2]
        | ok resp2 =>
          refine Or.inr (Or.inr (Or.inr ⟨resp1, rs, rfl, hstop, hp,
            Or.inr ⟨resp2, hm2, ?_⟩⟩))
          simp only [conv2] at hm2
          simp [invoke_model_with_tools, hm1, hstop, hp, hm2, conv2]
    · exact Or.inr (Or.inl ⟨resp1, rfl, hstop,
        by simp [invoke_model_with_tools, hm1, hstop]⟩)

/-- When the first response requests tools and dispatch succeeds, the
trace consists of the initial conversation and the three-message
conversation of the second call, whatever the second call returns. -/
lemma invoke_trace_of_ok (model : List Message → Except Unit Response)
    (msg : String) (resp1 : Response) (rs : List Block)
    (h1 : model [userMsg msg] = .ok resp1)
    (h2 : resp1.stop_reason = some "tool_use")
    (hp : processBlocks resp1.content = .ok rs) :
    (invoke_model_with_tools model msg).2 =
      [[userMsg msg], conv2 msg resp1.content rs] := by
  rcases invoke_cases model msg with ⟨hm, _⟩ | ⟨r, hm, hst, _⟩ |
    ⟨r, hm, _, hpe, _⟩ | ⟨r, rs', hm, _, hp', hsub⟩
  · rw [h1] at hm
    exact absurd hm (by simp)
  · rw [h1] at hm
    obtain rfl : resp1 = r := by injection hm
    exact absurd h2 hst
  · rw [h1] at hm
    obtain rfl : resp1 = r := by injection hm
    rw [hp] at hpe
    exact absurd hpe (by simp)
  · rw [h1] at hm
    obtain rfl : resp1 = r := by injection hm
    rw [hp] at hp'
    obtain rfl : rs = rs' := by injection hp'
    rcases hsub with ⟨_, he⟩ | ⟨resp2, _, he⟩ <;> rw [he]

/-- When additionally the second inference call succeeds, the returned
value is the text concatenation of the second response. -/
lemma invoke_result_of_second_ok (model : List Message → Except Unit Response)
    (msg : String) (resp1 : Response) (rs : List Block) (resp2 : Response)
    (h1 : model [userMsg msg] = .ok resp1)
    (h2 : resp1.stop_reason = some "tool_use")
    (hp : processBlocks resp1.content = .ok rs)
    (hm2 : model (conv2 msg resp1.content rs) = .ok resp2) :
    (invoke_model_with_tools model msg).1 = some (concatText resp2.content) := by
  rcases invoke_cases model msg with ⟨hm, _⟩ | ⟨r, hm, hst, _⟩ |
    ⟨r, hm, _, hpe, _⟩ | ⟨r, rs', hm, _, hp', hsub⟩
  · rw [h1] at hm
    exact absurd hm (by simp)
  · rw [h1] at hm
    obtain rfl : resp1 = r := by injection hm
    exact absurd h2 hst
  · rw [h1] at hm
    obtain rfl : resp1 = r := by injection hm
    rw [hp] at hpe
    exact absurd hpe (by simp)
  · rw [h1] at hm
    obtain rfl : resp1 = r := by injection hm
    rw [hp] at hp'
    obtain rfl : rs = rs' := by injection hp'
    rcases hsub with ⟨hme, _⟩ | ⟨resp2', hmo, he⟩
    · rw [hm2] at hme
      exact absurd hme (by simp)
    · rw [hm2] at hmo
      obtain rfl : resp2 = resp2' := by injection hmo
      rw [he]

end BedrockWorld

open BedrockWorld Similarity

/-- C9: for every CPF string whose exact form and digits-only
normalization are both absent from the database, `cpf_to_username`
returns a normal "not found" string mentioning the queried CPF; no
error is signaled (the function is total by construction). -/
theorem cpf_not_found_message (cpf : String)
    (h1 : CPF_DATABASE.lookup cpf = none)
    (h2 : CPF_DATABASE.lookup (normalizeCpf cpf) = none) :
    cpf_to_username cpf = "CPF " ++ cpf ++ " not found in database" := by
  unfold cpf_to_username
  rw [h1, h2]

theorem cpf_not_found_message_witness :
    cpf_to_username "999.999.999-99" =
      "CPF 999.999.999-99 not found in database" :=
  cpf_not_found_message "999.999.999-99" rfl rfl

/-- C10: `cosineSimilarity` is total over rational vectors with an
explicit square-root parameter; whenever either magnitude is zero
(in particular for an empty vector, whose sum of squares is zero) it
returns exactly `0` without dividing, and whenever it does divide the
divisor is nonzero. -/
theorem cosineSimilarity_zero_magnitude (sqrt : ℚ → ℚ) (hs : sqrt 0 = 0)
    (v1 v2 : List ℚ) :
    (magnitude sqrt v1 = 0 ∨ magnitude sqrt v2 = 0 →
      cosineSimilarity sqrt v1 v2 = 0)
    ∧ (cosineSimilarity sqrt [] v2 = 0 ∧ cosineSimilarity sqrt v1 [] = 0)
    ∧ (magnitude sqrt v1 ≠ 0 → magnitude sqrt v2 ≠ 0 →
        magnitude sqrt v1 * magnitude sqrt v2 ≠ 0) := by
  have hnil : magnitude sqrt [] = 0 := by
    simp [magnitude, sumSq, hs]
  refine ⟨fun h => ?_, ⟨?_, ?_⟩, fun h1 h2 => mul_ne_zero h1 h2⟩
  · simp only [cosineSimilarity]
    rw [if_pos h]
  · simp only [cosineSimilarity]
    rw [if_pos (Or.inl hnil)]
  · simp only [cosineSimilarity]
    rw [if_pos (Or.inr hnil)]

theorem cosineSimilarity_zero_magnitude_witness :
    cosineSimilarity (fun x => x) [(1 : ℚ), 2] [0, 0] = 0 :=
  (cosineSimilarity_zero_magnitude (fun x => x) rfl [(1 : ℚ), 2] [0, 0]).1
    (Or.inr (by simp [magnitude, sumSq]))

/-- C4: when the first response's stop reason differs from `tool_use`,
`invoke_model_with_tools` performs exactly one inference call and returns
the concatenation of that response's text blocks. -/
theorem no_tool_use_single_call (model : List Message → Except Unit Response)
    (msg : String) (resp : Response)
    (h1 : model [userMsg msg] = .ok resp)
    (h2 : resp.stop_reason ≠ some "tool_use") :
    invoke_model_with_tools model msg =
      (some (concatText resp.content), [[userMsg msg]]) := by
  unfold invoke_model_with_tools
  simp only [h1]
  rw [if_neg h2]

theorem no_tool_use_single_call_witness :
    invoke_model_with_tools
        (fun _ => .ok ⟨some "end_turn", [Block.text "Hello", Block.text "!"]⟩)
        "hi" =
      (some (concatText [Block.text "Hello", Block.text "!"]), [[userMsg "hi"]]) :=
  no_tool_use_single_call _ "hi" ⟨some "end_turn", [Block.text "Hello", Block.text "!"]⟩
    rfl (by simp)

/-- C7: whenever `invoke_model_with_tools` returns a string (Python does
not take the `except` path), that string is the concatenation of the text
blocks of the response to the last inference call performed, and it is
empty when that response has no text block. -/
theorem final_text_concatenation (model : List Message → Except Unit Response)
    (msg s : String) (trace : List (List Message))
    (h : invoke_model_with_tools model msg = (some s, trace)) :
    ∃ ms resp, trace.getLast? = some ms ∧ model ms = .ok resp
      ∧ s = concatText resp.content
      ∧ ((∀ b ∈ resp.content, ∀ t, b ≠ Block.text t) → s = "") := by
  unfold invoke_model_with_tools at h
  simp only [] at h
  split at h
  · simp at h
  case _ resp1 heq1 =>
    split at h
    case isTrue hstop =>
      split at h
      · simp at h
      case _ tool_results heqp =>
        split at h
        · simp at h
        case _ resp2 heq2 =>
          rw [Prod.mk.injEq] at h
          obtain ⟨hs, htrace⟩ := h
          refine ⟨_, resp2, ?_, heq2, ?_, ?_⟩
          · rw [← htrace]
            rfl
          · exact (Option.some.injEq _ _).mp hs.symm
          · intro hno
            rw [(Option.some.injEq _ _).mp hs.symm]
            exact concatText_of_no_text _ hno
    case isFalse hstop =>
      rw [Prod.mk.injEq] at h
      obtain ⟨hs, htrace⟩ := h
      refine ⟨[userMsg msg], resp1, ?_, heq1, ?_, ?_⟩
      · rw [← htrace]
        rfl
      · exact (Option.some.injEq _ _).mp hs.symm
      · intro hno
        rw [(Option.some.injEq _ _).mp hs.symm]
        exact concatText_of_no_text _ hno

theorem final_text_concatenation_witness :
    ∃ ms resp, [[userMsg "hi"]].getLast? = some ms
      ∧ (fun (_ : List Message) =>
          (.ok ⟨some "end_turn", [Block.text "ok"]⟩ : Except Unit Response)) ms = .ok resp
      ∧ "ok" = concatText resp.content
      ∧ ((∀ b ∈ resp.content, ∀ t, b ≠ Block.text t) → "ok" = "") :=
  final_text_concatenation
    (fun _ => .ok ⟨some "end_turn", [Block.text "ok"]⟩) "hi" "ok" [[userMsg "hi"]] rfl

/-- C8: `invoke_model_with_tools` never performs more than two inference
calls, and when a second call was made and answered, its response is
final: the returned string is that response's text concatenation, with no
further dispatch, whatever its stop reason. -/
theorem at_most_two_calls_second_final (model : List Message → Except Unit Response)
    (msg : String) :
    (invoke_model_with_tools model msg).2.length ≤ 2
    ∧ (∀ ms1 ms2 resp2, (invoke_model_with_tools model msg).2 = [ms1, ms2] →
        model ms2 = .ok resp2 →
        (invoke_model_with_tools model msg).1 = some (concatText resp2.content)) := by
  rcases invoke_cases model msg with ⟨hm, he⟩ | ⟨r1, hm, hst, he⟩ |
    ⟨r1, hm, hst, hpe, he⟩ | ⟨r1, rs, hm, hst, hp, hsub⟩
  · rw [he]
    refine ⟨by simp, fun ms1 ms2 resp2 htr hok => ?_⟩
    simp at htr
  · rw [he]
    refine ⟨by simp, fun ms1 ms2 resp2 htr hok => ?_⟩
    simp at htr
  · rw [he]
    refine ⟨by simp, fun ms1 ms2 resp2 htr hok => ?_⟩
    simp at htr
  · rcases hsub with ⟨hm2, he⟩ | ⟨resp2', hm2, he⟩ <;> rw [he] <;>
      refine ⟨by simp, fun ms1 ms2 resp2 htr hok => ?_⟩ <;>
      simp only [List.cons.injEq, and_true] at htr <;>
      obtain ⟨rfl, rfl, -⟩ := htr <;> rw [hok] at hm2
    · exact absurd hm2 (by simp)
    · obtain rfl : resp2 = resp2' := by injection hm2
      rfl

theorem at_most_two_calls_second_final_witness :
    (invoke_model_with_tools alwaysToolModel "q").1 =
      some (concatText
        [Block.text "draft",
         Block.toolUse "t2" "cpf_to_username" [("cpf", JVal.jstr "55566677788")]]) :=
  (at_most_two_calls_second_final alwaysToolModel "q").2
    [userMsg "q"]
    (conv2 "q" [Block.toolUse "t1" "cpf_to_username" [("cpf", JVal.jstr "11122233344")]]
      [Block.toolResult "t1" "Pedro Oliveira"])
    ⟨some "tool_use",
     [Block.text "draft",
      Block.toolUse "t2" "cpf_to_username" [("cpf", JVal.jstr "55566677788")]]⟩
    rfl rfl

/-- C2 counterexample: on a transport failure of the first inference call
the source catches the exception (line 172) and returns `None` (line 174),
a normal return value, instead of signaling the failure to the caller. -/
theorem transport_failure_returns_none_cex :
    invoke_model_with_tools failingModel "lookup 999" =
      (none, [[userMsg "lookup 999"]]) := rfl

/-- C2 amended: when any attempted inference call fails with a transport
error, `invoke_model_with_tools` catches the exception and returns `None`
(it does not propagate the failure), and the failing call is the last one
attempted, so no retry is performed. -/
theorem transport_failure_returns_none (model : List Message → Except Unit Response)
    (msg : String) (ms : List Message)
    (h1 : ms ∈ (invoke_model_with_tools model msg).2)
    (h2 : model ms = .error ()) :
    (invoke_model_with_tools model msg).1 = none
    ∧ (invoke_model_with_tools model msg).2.getLast? = some ms := by
  rcases invoke_cases model msg with ⟨hm, he⟩ | ⟨r1, hm, hst, he⟩ |
    ⟨r1, hm, hst, hpe, he⟩ | ⟨r1, rs, hm, hst, hp, hsub⟩
  · rw [he] at h1 ⊢
    simp only [List.mem_singleton] at h1
    subst h1
    simp
  · rw [he] at h1
    simp only [List.mem_singleton] at h1
    subst h1
    rw [h2] at hm
    exact absurd hm (by simp)
  · rw [he] at h1
    simp only [List.mem_singleton] at h1
    subst h1
    rw [h2] at hm
    exact absurd hm (by simp)
  · rcases hsub with ⟨hm2, he⟩ | ⟨resp2, hm2, he⟩ <;> rw [he] at h1 ⊢ <;>
      simp only [List.mem_cons, List.mem_singleton, List.not_mem_nil, or_false] at h1 <;>
      rcases h1 with rfl | rfl
    · rw [h2] at hm
      exact absurd hm (by simp)
    · simp
    · rw [h2] at hm
      exact absurd hm (by simp)
    · rw [h2] at hm2
      exact absurd hm2 (by simp)

theorem transport_failure_returns_none_witness :
    (invoke_model_with_tools failingModel "hi").1 = none
    ∧ (invoke_model_with_tools failingModel "hi").2.getLast? = some [userMsg "hi"] :=
  transport_failure_returns_none failingModel "hi" [userMsg "hi"] (by decide) rfl

/-- C1 counterexample: the first response requests the unregistered tool
`mystery_tool`; the source silently skips the block (lines 133-143 guard
on the known name only), still performs the second inference call with an
empty tool-result list, and returns its text normally — no error is
signaled and the round trip is not fatal. -/
theorem unknownTool_second_call_performed_cex :
    invoke_model_with_tools unknownToolModel "who?" =
      (some "hi",
       [[userMsg "who?"],
        conv2 "who?" [Block.toolUse "t1" "mystery_tool" []] []]) := rfl

/-- C1 amended: a tool-use block naming an unregistered tool is silently
skipped: it contributes no tool result, no error is signaled, and the
second inference call is still performed with an empty batched
tool-result message; its text is returned normally. -/
theorem unknownTool_skipped_no_error (model : List Message → Except Unit Response)
    (msg tid name : String) (input : List (String × JVal)) (resp1 : Response)
    (h1 : model [userMsg msg] = .ok resp1)
    (h2 : resp1.stop_reason = some "tool_use")
    (h3 : toolUseBlocks resp1.content = [(tid, name, input)])
    (h4 : name ≠ "cpf_to_username") :
    (invoke_model_with_tools model msg).2 =
      [[userMsg msg], conv2 msg resp1.content []]
    ∧ (∀ resp2, model (conv2 msg resp1.content []) = .ok resp2 →
        (invoke_model_with_tools model msg).1 = some (concatText resp2.content)) := by
  have hb : (name == "cpf_to_username") = false := by
    rw [beq_eq_false_iff_ne]
    exact h4
  have hp : processBlocks resp1.content = .ok [] := by
    rw [processBlocks_eq resp1.content (fun x hx hreg => ?_), h3]
    · simp [List.filter_cons, hb]
    · rw [h3] at hx
      simp only [List.mem_singleton] at hx
      subst hx
      exact absurd hreg h4
  exact ⟨invoke_trace_of_ok model msg resp1 [] h1 h2 hp,
    fun resp2 hm2 => invoke_result_of_second_ok model msg resp1 [] resp2 h1 h2 hp hm2⟩

theorem unknownTool_skipped_no_error_witness :
    (invoke_model_with_tools unknownToolModel "q").2 =
      [[userMsg "q"], conv2 "q" [Block.toolUse "t1" "mystery_tool" []] []]
    ∧ (∀ resp2,
        unknownToolModel (conv2 "q" [Block.toolUse "t1" "mystery_tool" []] []) = .ok resp2 →
        (invoke_model_with_tools unknownToolModel "q").1 =
          some (concatText resp2.content)) :=
  unknownTool_skipped_no_error unknownToolModel "q" "t1" "mystery_tool" []
    ⟨some "tool_use", [Block.toolUse "t1" "mystery_tool" []]⟩ rfl rfl rfl (by decide)

/-- C3 counterexample: the first response invokes the registered tool with
a non-string `"cpf"` argument; the handler invocation raises, nothing
catches it per-invocation, the outer `try/except` returns `None`: no
final string is produced, no error-describing tool result is built, and
no second inference call happens. -/
theorem handler_failure_aborts_run_cex :
    invoke_model_with_tools badInputModel "lookup 123" =
      (none, [[userMsg "lookup 123"]]) := rfl

/-- C3 amended: a failure raised during a tool handler invocation
propagates to the single outer `try/except` of the round trip, which
returns `None`: the run produces no final string, no `ToolResult` error
description is added to the conversation, and no second inference call is
performed. -/
theorem handler_failure_aborts_run (model : List Message → Except Unit Response)
    (msg : String) (resp1 : Response)
    (h1 : model [userMsg msg] = .ok resp1)
    (h2 : resp1.stop_reason = some "tool_use")
    (h3 : processBlocks resp1.content = .error ()) :
    invoke_model_with_tools model msg = (none, [[userMsg msg]]) := by
  unfold invoke_model_with_tools
  simp only []
  simp only [h1]
  rw [if_pos h2]
  simp only [h3]

theorem handler_failure_aborts_run_witness :
    invoke_model_with_tools badInputModel "q" = (none, [[userMsg "q"]]) :=
  handler_failure_aborts_run badInputModel "q"
    ⟨some "tool_use", [Block.toolUse "t1" "cpf_to_username" [("cpf", JVal.jnum 123)]]⟩
    rfl rfl rfl

/-- C5: when the first response carries stop reason `tool_use` and exactly
one tool-use block, naming the registered tool with a schema-conforming
input, exactly two inference calls are performed and the second call's
conversation contains a user message with a tool result whose
`tool_use_id` equals the tool-use block's id. -/
theorem single_registered_tool_two_calls (model : List Message → Except Unit Response)
    (msg tid : String) (inp : List (String × JVal)) (resp1 : Response)
    (h1 : model [userMsg msg] = .ok resp1)
    (h2 : resp1.stop_reason = some "tool_use")
    (h3 : toolUseBlocks resp1.content = [(tid, "cpf_to_username", inp)])
    (h4 : cpfInputOk inp = true) :
    (invoke_model_with_tools model msg).2 =
      [[userMsg msg], conv2 msg resp1.content [Block.toolResult tid (handlerValue inp)]]
    ∧ (∃ bs, (⟨"user", MsgContent.blocks bs⟩ : Message) ∈
          conv2 msg resp1.content [Block.toolResult tid (handlerValue inp)]
        ∧ (tid, handlerValue inp) ∈ toolResultBlocks bs) := by
  have hp : processBlocks resp1.content =
      .ok [Block.toolResult tid (handlerValue inp)] := by
    rw [processBlocks_eq resp1.content (fun x hx hreg => ?_), h3]
    · simp [List.filter_cons]
    · rw [h3] at hx
      simp only [List.mem_singleton] at hx
      subst hx
      exact h4
  refine ⟨invoke_trace_of_ok model msg resp1 _ h1 h2 hp,
    [Block.toolResult tid (handlerValue inp)], ?_, ?_⟩
  · simp [conv2]
  · simp [toolResultBlocks]

theorem single_registered_tool_two_calls_witness :
    (invoke_model_with_tools singleToolModel "Maria?").2 =
      [[userMsg "Maria?"],
       conv2 "Maria?"
         [Block.toolUse "t9" "cpf_to_username" [("cpf", JVal.jstr "987.654.321-00")]]
         [Block.toolResult "t9"
           (handlerValue [("cpf", JVal.jstr "987.654.321-00")])]]
    ∧ (∃ bs, (⟨"user", MsgContent.blocks bs⟩ : Message) ∈
          conv2 "Maria?"
            [Block.toolUse "t9" "cpf_to_username" [("cpf", JVal.jstr "987.654.321-00")]]
            [Block.toolResult "t9"
              (handlerValue [("cpf", JVal.jstr "987.654.321-00")])]
        ∧ ("t9", handlerValue [("cpf", JVal.jstr "987.654.321-00")]) ∈
            toolResultBlocks bs) :=
  single_registered_tool_two_calls singleToolModel "Maria?" "t9"
    [("cpf", JVal.jstr "987.654.321-00")]
    ⟨some "tool_use",
     [Block.toolUse "t9" "cpf_to_username" [("cpf", JVal.jstr "987.654.321-00")]]⟩
    rfl rfl rfl rfl

/-- C6 counterexample: the first response holds two tool-use blocks, one
registered and one unknown; the single batched user message sent before
the second call contains only one tool result, not all two — the unknown
block was resolved to nothing rather than being included. -/
theorem batched_results_missing_unknown_cex :
    invoke_model_with_tools twoToolModel "two lookups" =
      (some "done",
       [[userMsg "two lookups"],
        conv2 "two lookups"
          [Block.toolUse "a" "cpf_to_username" [("cpf", JVal.jstr "123.456.789-00")],
           Block.toolUse "b" "mystery_tool" []]
          [Block.toolResult "a" "João da Silva"]])
    ∧ (toolUseBlocks
        [Block.toolUse "a" "cpf_to_username" [("cpf", JVal.jstr "123.456.789-00")],
         Block.toolUse "b" "mystery_tool" []]).length = 2
    ∧ (toolResultBlocks [Block.toolResult "a" "João da Silva"]).length = 1 :=
  ⟨rfl, rfl, rfl⟩

/-- C6 amended: when the first response holds N ≥ 2 tool-use blocks that
all name the registered tool with schema-conforming inputs, they are all
resolved sequentially and exactly one batched user message carrying all N
tool results is appended before the single second inference call. -/
theorem all_registered_tools_batched (model : List Message → Except Unit Response)
    (msg : String) (resp1 : Response)
    (h1 : model [userMsg msg] = .ok resp1)
    (h2 : resp1.stop_reason = some "tool_use")
    (h3 : ∀ x ∈ toolUseBlocks resp1.content,
        x.2.1 = "cpf_to_username" ∧ cpfInputOk x.2.2 = true)
    (h4 : 2 ≤ (toolUseBlocks resp1.content).length) :
    (invoke_model_with_tools model msg).2 =
      [[userMsg msg],
       conv2 msg resp1.content
         ((toolUseBlocks resp1.content).map
           (fun x => Block.toolResult x.1 (handlerValue x.2.2)))]
    ∧ ((toolUseBlocks resp1.content).map
        (fun x => Block.toolResult x.1 (handlerValue x.2.2))).length
      = (toolUseBlocks resp1.content).length := by
  have hfilter : (toolUseBlocks resp1.content).filter
      (fun x => x.2.1 == "cpf_to_username") = toolUseBlocks resp1.content := by
    rw [List.filter_eq_self]
    intro x hx
    exact beq_iff_eq.mpr (h3 x hx).1
  have hp : processBlocks resp1.content =
      .ok ((toolUseBlocks resp1.content).map
        (fun x => Block.toolResult x.1 (handlerValue x.2.2))) := by
    rw [processBlocks_eq resp1.content (fun x hx _ => (h3 x hx).2), hfilter]
  exact ⟨invoke_trace_of_ok model msg resp1 _ h1 h2 hp, List.length_map _ _⟩

theorem all_registered_tools_batched_witness :
    (invoke_model_with_tools twoRegisteredModel "both?").2 =
      [[userMsg "both?"],
       conv2 "both?"
         [Block.toolUse "a" "cpf_to_username" [("cpf", JVal.jstr "12345678900")],
          Block.toolUse "b" "cpf_to_username" [("cpf", JVal.jstr "98765432100")]]
         ((toolUseBlocks
            [Block.toolUse "a" "cpf_to_username" [("cpf", JVal.jstr "12345678900")],
             Block.toolUse "b" "cpf_to_username" [("cpf", JVal.jstr "98765432100")]]).map
           (fun x => Block.toolResult x.1 (handlerValue x.2.2)))]
    ∧ ((toolUseBlocks
          [Block.toolUse "a" "cpf_to_username" [("cpf", JVal.jstr "12345678900")],
           Block.toolUse "b" "cpf_to_username" [("cpf", JVal.jstr "98765432100")]]).map
        (fun x => Block.toolResult x.1 (handlerValue x.2.2))).length
      = (toolUseBlocks
          [Block.toolUse "a" "cpf_to_username" [("cpf", JVal.jstr "12345678900")],
           Block.toolUse "b" "cpf_to_username" [("cpf", JVal.jstr "98765432100")]]).length :=
  all_registered_tools_batched twoRegisteredModel "both?"
    ⟨some "tool_use",
     [Block.toolUse "a" "cpf_to_username" [("cpf", JVal.jstr "12345678900")],
      Block.toolUse "b" "cpf_to_username" [("cpf", JVal.jstr "98765432100")]]⟩
    rfl rfl (by decide) (by decide)
